import Mathlib

/-!
Shallow embedding of `src/data_visualization/dashboard.py` (TCG dashboard).

The dashboard loads six tables (project, member, company, gbm, attendance,
assignment) from a Supabase backend, applies a quarter filter to the projects
table, and renders KPI cards and charts.  We embed:

* an in-memory tabular structure (`DataFrame`) mirroring the pandas DataFrame
  operations the dashboard actually uses (column presence, row filtering,
  `isin`, `groupby ... size/sum`, `value_counts`-free aggregations, boolean
  column sums, case-insensitive substring matching on a string column);
* the six cached loaders as functions of the resolved configuration and the
  outcome of the single backend fetch they attempt;
* the quarter filter (`filtered_projects`, lines 415-418) and quarter selector
  options (lines 396-405);
* the KPI computations of the Projects, Members and GBMs tabs.

Numeric KPI display strings of the form `f"{x:.1f}"` are modelled by rounding
the exact rational to one decimal (`round1`).  Python formats the IEEE double;
for the non-tie values arising here the results coincide.
-/

namespace TCG

/-- A cell value: the dashboard's tables hold integers, booleans and strings. -/
inductive Value where
  | vInt : Int → Value
  | vBool : Bool → Value
  | vStr : String → Value
deriving DecidableEq

/-- Numeric view of a cell, as pandas aggregations see it: booleans count as
0/1, integers as themselves; non-numeric cells are skipped (pandas `skipna`)
by the aggregations below, which use `Option.bind`/`filterMap` on this. -/
def Value.toQ : Value → Option ℚ
  | Value.vInt n => some (n : ℚ)
  | Value.vBool b => some (if b then 1 else 0)
  | Value.vStr _ => none

/-- An in-memory table: named columns and rows of cells aligned with the
column list (the pandas DataFrame shape the loaders build from the backend
rows). -/
structure DataFrame where
  columns : List String
  rows : List (List Value)
deriving DecidableEq

/-- `pd.DataFrame()`: the empty table, no columns and no rows. -/
def DataFrame.emptyDF : DataFrame := ⟨[], []⟩

/-- `c in df.columns`. -/
def DataFrame.hasCol (df : DataFrame) (c : String) : Bool :=
  df.columns.contains c

/-- Index of a column name in the column list. -/
def DataFrame.colIdx (df : DataFrame) (c : String) : Option Nat :=
  df.columns.findIdx? (fun s => s = c)

/-- The cell of row `r` in column `c` (none when the column is missing or the
row is short, i.e. the pandas NaN case). -/
def cellAt (df : DataFrame) (r : List Value) (c : String) : Option Value :=
  (df.colIdx c).bind (fun i => r.get? i)

/-- `df[c]` with missing cells dropped: the non-NaN values of a column. -/
def DataFrame.colVals (df : DataFrame) (c : String) : List Value :=
  (df.rows.map (fun r => cellAt df r c)).filterMap id

/-- `df[c].sum()` for a numeric/boolean column, skipping non-numeric cells the
way pandas skips NaN. -/
def sumColQ (df : DataFrame) (c : String) : ℚ :=
  ((df.colVals c).filterMap Value.toQ).sum

/-- The distinct keys of `df.groupby(c)` (pandas drops NaN keys). -/
def groupKeys (df : DataFrame) (c : String) : List Value :=
  (df.colVals c).dedup

/-- `df.groupby(c).size()`: per-key row counts; `none` models the `KeyError`
pandas raises when the column is absent (the dashboard performs this call on
the assignments table without a column-presence check). -/
def groupSizes (df : DataFrame) (c : String) : Option (List (Value × Nat)) :=
  if df.hasCol c then
    some ((groupKeys df c).map (fun k => (k, (df.colVals c).count k)))
  else none

/-- `df.groupby(key)[col].sum()`: per-key sums of a numeric/boolean column,
skipping non-numeric cells like pandas NaN. -/
def groupSumsQ (df : DataFrame) (key col : String) : List (Value × ℚ) :=
  (groupKeys df key).map (fun k =>
    let grp := df.rows.filter (fun r => cellAt df r key = some k)
    (k, (grp.filterMap (fun r => (cellAt df r col).bind Value.toQ)).sum))

/-- Ordering on cell values used by `sorted(...)` on the quarter options:
within a constructor the natural order, across constructors by tag. -/
def Value.tag : Value → Nat
  | Value.vInt _ => 0
  | Value.vBool _ => 1
  | Value.vStr _ => 2

def Value.le (a b : Value) : Bool :=
  match a, b with
  | Value.vInt x, Value.vInt y => decide (x ≤ y)
  | Value.vBool x, Value.vBool y => !x || y
  | Value.vStr x, Value.vStr y => decide (x ≤ y)
  | _, _ => decide (a.tag ≤ b.tag)

def insertSorted (v : Value) : List Value → List Value
  | [] => [v]
  | x :: xs => if Value.le v x then v :: x :: xs else x :: insertSorted v xs

/-- `sorted(l)` by insertion sort under `Value.le`. -/
def sortVals (l : List Value) : List Value :=
  l.foldr insertSorted []

/-- `f"{x:.1f}"`: the displayed value after rounding to one decimal place. -/
def round1 (q : ℚ) : ℚ :=
  ((round (q * 10) : ℤ) : ℚ) / 10

/-- What a KPI card displays: a number, the "N/A" sentinel, or the "-"
placeholder of the unimplemented cells. -/
inductive Metric where
  | num : ℚ → Metric
  | na : Metric
  | dash : Metric
deriving DecidableEq

/-! ## Loaders (dashboard.py lines 280-376)

Each loader reads `SUPABASE_URL`/`SUPABASE_KEY`, and if both are present
attempts exactly one fetch of its table.  We embed a loader as a function of
the two environment values and of the outcome of that single fetch attempt
(`Except.error` = the backend query raised).  The result records whether
`st.stop()` was reached (`halted`), whether `st.error` was shown
(`errorShown`), the returned table, and how many fetch attempts were made. -/

structure LoadResult where
  halted : Bool
  errorShown : Bool
  df : DataFrame
  fetchAttempts : Nat
deriving DecidableEq

/-- `if not SUPABASE_URL or not SUPABASE_KEY`: both must be present and
non-empty (Python truthiness of the strings). -/
def configOk : Option String → Option String → Bool
  | some u, some k => !u.isEmpty && !k.isEmpty
  | _, _ => false

/-- Lines 280-296.  Missing config: `st.error` + `st.stop()` (halted; the
`df` field is a placeholder, the function never returns).  Fetch error:
`st.error(f"Error loading project data: {e}")` then `return pd.DataFrame()`. -/
def load_projects (url key : Option String) (fetch : Except String DataFrame) :
    LoadResult :=
  if !configOk url key then
    ⟨true, true, DataFrame.emptyDF, 0⟩
  else
    match fetch with
    | Except.ok d => ⟨false, false, d, 1⟩
    | Except.error _ => ⟨false, true, DataFrame.emptyDF, 1⟩

/-- Lines 298-312: missing config or fetch error both silently yield
`pd.DataFrame()`. -/
def load_members (url key : Option String) (fetch : Except String DataFrame) :
    LoadResult :=
  if !configOk url key then ⟨false, false, DataFrame.emptyDF, 0⟩
  else
    match fetch with
    | Except.ok d => ⟨false, false, d, 1⟩
    | Except.error _ => ⟨false, false, DataFrame.emptyDF, 1⟩

/-- Lines 314-328, same shape as `load_members`. -/
def load_companies (url key : Option String) (fetch : Except String DataFrame) :
    LoadResult :=
  if !configOk url key then ⟨false, false, DataFrame.emptyDF, 0⟩
  else
    match fetch with
    | Except.ok d => ⟨false, false, d, 1⟩
    | Except.error _ => ⟨false, false, DataFrame.emptyDF, 1⟩

/-- Lines 330-344, same shape as `load_members`. -/
def load_gbms (url key : Option String) (fetch : Except String DataFrame) :
    LoadResult :=
  if !configOk url key then ⟨false, false, DataFrame.emptyDF, 0⟩
  else
    match fetch with
    | Except.ok d => ⟨false, false, d, 1⟩
    | Except.error _ => ⟨false, false, DataFrame.emptyDF, 1⟩

/-- Lines 346-360, same shape as `load_members`. -/
def load_attendance (url key : Option String) (fetch : Except String DataFrame) :
    LoadResult :=
  if !configOk url key then ⟨false, false, DataFrame.emptyDF, 0⟩
  else
    match fetch with
    | Except.ok d => ⟨false, false, d, 1⟩
    | Except.error _ => ⟨false, false, DataFrame.emptyDF, 1⟩

/-- Lines 362-376, same shape as `load_members`. -/
def load_assignments (url key : Option String) (fetch : Except String DataFrame) :
    LoadResult :=
  if !configOk url key then ⟨false, false, DataFrame.emptyDF, 0⟩
  else
    match fetch with
    | Except.ok d => ⟨false, false, d, 1⟩
    | Except.error _ => ⟨false, false, DataFrame.emptyDF, 1⟩

/-- Modelled from the spec: the memoization that the `@st.cache_data`
decorator wraps around each loader is Streamlit framework behavior, not code
under `src/`.  Per the spec the cache is keyed by function identity only (the
loaders take no arguments) and, within the cache window, a repeated call
returns the previously fetched snapshot without re-querying.  The state is
the per-function cache slot; the `Nat` counts backend queries performed by
the call. -/
structure CallResult where
  df : DataFrame
  cache : Option DataFrame
  backendQueries : Nat
deriving DecidableEq

/-- Modelled from the spec: one invocation of a cached loader.  On a cache
hit the cached snapshot is returned with no backend query; on a miss the
fetch runs once and its result is stored. -/
def cachedCall (fetch : Unit → DataFrame) (cache : Option DataFrame) :
    CallResult :=
  match cache with
  | some d => ⟨d, some d, 0⟩
  | none => ⟨fetch (), some (fetch ()), 1⟩

/-! ## Quarter filter (dashboard.py lines 396-418) -/

/-- Lines 396-405: the quarter multi-select.  When the projects table is
non-empty and has a `quarter_id` column its options are
`sorted(projects_df['quarter_id'].unique())`; otherwise no widget is shown
and the selection is empty. -/
def quarterOptions (p : DataFrame) : List Value :=
  if !p.rows.isEmpty && p.hasCol "quarter_id" then
    sortVals ((p.colVals "quarter_id").dedup)
  else []

/-- Lines 415-418: `filtered_projects`.  Rows whose `quarter_id` is in the
selection (pandas `isin`; a NaN cell is never in the selection); the table is
returned unchanged when it is empty, lacks the column, or the selection is
empty. -/
def applyFilter (p : DataFrame) (sel : List Value) : DataFrame :=
  if !p.rows.isEmpty && p.hasCol "quarter_id" then
    if !sel.isEmpty then
      { p with rows := p.rows.filter (fun r =>
          match cellAt p r "quarter_id" with
          | some v => sel.contains v
          | none => false) }
    else p
  else p

/-! ## Projects tab KPIs (dashboard.py lines 494-522) -/

/-- Lines 494-496: `len(filtered_projects) if not filtered_projects.empty
else 0` — always a number, never "N/A". -/
def active_projects_kpi (fp : DataFrame) : Metric :=
  Metric.num (if !fp.rows.isEmpty then (fp.rows.length : ℚ) else 0)

/-- Lines 498-507: mean of `assignments_df.groupby('project_id').size()`,
displayed `f"{x:.1f}"`; "N/A" when the filtered projects table is empty or
lacks `project_manager`.  `none` models the `KeyError` raised when the
assignments table is non-empty but lacks `project_id` (the code does not
check that column). -/
def avg_team_size_kpi (fp assigns : DataFrame) : Option Metric :=
  if !fp.rows.isEmpty && fp.hasCol "project_manager" then
    if !assigns.rows.isEmpty then
      match groupSizes assigns "project_id" with
      | none => none
      | some sizes =>
        let avg : ℚ :=
          if 0 < sizes.length then
            ((sizes.map (fun pr => (pr.2 : ℚ))).sum) / (sizes.length : ℚ)
          else 0
        some (Metric.num (round1 avg))
    else some (Metric.num (round1 0))
  else some Metric.na

/-- Lines 509-514: `len(filtered_projects) / len(companies_df)`, displayed
`f"{x:.1f}"`; "N/A" when either table is empty. -/
def projects_per_company_kpi (comps fp : DataFrame) : Metric :=
  if !comps.rows.isEmpty && !fp.rows.isEmpty then
    Metric.num (round1 (if 0 < comps.rows.length then
      (fp.rows.length : ℚ) / (comps.rows.length : ℚ) else 0))
  else Metric.na

/-- Lines 516-522: `filtered_projects['donated'].sum() / len * 100`,
displayed `f"{x:.1f}%"`; "N/A" when the table is empty or lacks `donated`.
The redundant inner column check of line 518 is kept. -/
def donated_projects_kpi (fp : DataFrame) : Metric :=
  if !fp.rows.isEmpty && fp.hasCol "donated" then
    let cnt : ℚ := if fp.hasCol "donated" then sumColQ fp "donated" else 0
    let pct : ℚ :=
      if 0 < fp.rows.length then cnt / (fp.rows.length : ℚ) * 100 else 0
    Metric.num (round1 pct)
  else Metric.na

/-! ## Members tab KPI (dashboard.py lines 602-608) -/

/-- `s.lower()` containment: is `pat` (lowercased) a contiguous substring of
`s` (lowercased)?  Implemented over character lists. -/
def charsStartWith : List Char → List Char → Bool
  | [], _ => true
  | _ :: _, [] => false
  | a :: as, b :: bs => a = b && charsStartWith as bs

def containsCI (s pat : String) : Bool :=
  let sl := s.toList.map Char.toLower
  let pl := pat.toList.map Char.toLower
  (List.range (sl.length + 1)).any (fun i => charsStartWith pl (sl.drop i))

/-- `col.str.contains(pat, case=False, na=False)` on one cell: a string cell
is matched case-insensitively; a missing or non-string cell is `False`. -/
def roleMatches (pat : String) (v : Option Value) : Bool :=
  match v with
  | some (Value.vStr s) => containsCI s pat
  | _ => false

/-- The boolean mask `members_df['role'].str.contains(pat, case=False,
na=False)`, one entry per row. -/
def roleMask (m : DataFrame) (pat : String) : List Bool :=
  m.rows.map (fun r => roleMatches pat (cellAt m r "role"))

/-- Lines 602-608: `len(df[mask_Associate]) + len(df[mask_Analyst])`, i.e.
the number of `True` entries of each mask; "N/A" when the members table is
empty or lacks `role`. -/
def associates_analysts_kpi (m : DataFrame) : Metric :=
  if !m.rows.isEmpty && m.hasCol "role" then
    Metric.num (((roleMask m "Associate").count true : ℚ) +
      ((roleMask m "Analyst").count true : ℚ))
  else Metric.na

/-! ## GBMs tab KPIs (dashboard.py lines 789-807) -/

/-- Lines 789-796: `attendance_df['status'].sum() / len(attendance_df) * 100`
displayed `f"{x:.1f}%"`; "N/A" unless both attendance and members tables are
non-empty. -/
def gbm_attendance_kpi (att members : DataFrame) : Metric :=
  if !att.rows.isEmpty && !members.rows.isEmpty then
    let totalPossible := att.rows.length
    let attended : ℚ := if att.hasCol "status" then sumColQ att "status" else 0
    let pct : ℚ :=
      if 0 < totalPossible then attended / (totalPossible : ℚ) * 100 else 0
    Metric.num (round1 pct)
  else Metric.na

/-- Lines 798-807: mean of `attendance_df.groupby('gbm_id')['status'].sum()`
displayed `f"{x:.1f}"`; "N/A" unless both attendance and members tables are
non-empty and attendance has both `gbm_id` and `status` columns. -/
def avg_attendance_per_gbm_kpi (att members : DataFrame) : Metric :=
  if !att.rows.isEmpty && !members.rows.isEmpty then
    if att.hasCol "gbm_id" && att.hasCol "status" then
      let sums := groupSumsQ att "gbm_id" "status"
      let avg : ℚ :=
        if 0 < sums.length then
          ((sums.map Prod.snd).sum) / (sums.length : ℚ)
        else 0
      Metric.num (round1 avg)
    else Metric.na
  else Metric.na

/-! ## Concrete tables used by witnesses -/

/-- The attendance table `[(gbm_id=1,status=True), (gbm_id=1,status=False),
(gbm_id=2,status=True)]` of the spec's testable property. -/
def attC : DataFrame :=
  ⟨["gbm_id", "status"],
   [[Value.vInt 1, Value.vBool true],
    [Value.vInt 1, Value.vBool false],
    [Value.vInt 2, Value.vBool true]]⟩

/-- A one-row members table. -/
def membersW : DataFrame := ⟨["id"], [[Value.vInt 1]]⟩

/-- A projects table whose `donated` column is `[True, False, True]`. -/
def donC : DataFrame :=
  ⟨["donated"], [[Value.vBool true], [Value.vBool false], [Value.vBool true]]⟩

/-- A members table whose `role` column is
`["Associate", "associate", "Analyst", "Partner"]`. -/
def memC : DataFrame :=
  ⟨["role"],
   [[Value.vStr "Associate"], [Value.vStr "associate"],
    [Value.vStr "Analyst"], [Value.vStr "Partner"]]⟩

/-- A non-empty projects table without a `quarter_id` column. -/
def pW3 : DataFrame := ⟨["id"], [[Value.vInt 1]]⟩

/-- A projects table with two rows in different quarters. -/
def pW10 : DataFrame :=
  ⟨["quarter_id", "project_manager"],
   [[Value.vInt 1, Value.vStr "A"], [Value.vInt 2, Value.vStr "B"]]⟩

/-! ## Claims -/

/-- Counterexample to claim C1 as stated: with valid configuration and a
failing fetch, `load_projects` does not halt — the exception is caught, the
error is shown, and an empty table is returned (lines 294-296; `st.stop()` is
only reached on missing configuration, line 287). -/
theorem load_projects_error_not_fatal :
    (load_projects (some "u") (some "k")
      (Except.error "connection refused")).halted = false ∧
    (load_projects (some "u") (some "k")
      (Except.error "connection refused")).df = DataFrame.emptyDF := by
  decide

/-- Claim C1 (amended): if the fetch of the primary `project` table fails,
the projects loader surfaces the error to the user but does not halt: it
recovers by returning an empty table.  It differs from the other five loaders
only in showing the error message; execution halts only when the
configuration is missing. -/
theorem load_projects_error_surfaced_not_halting (u k e : String)
    (hcfg : configOk (some u) (some k) = true)
    (f : Except String DataFrame) :
    (load_projects (some u) (some k) (Except.error e)).errorShown = true ∧
    (load_projects (some u) (some k) (Except.error e)).halted = false ∧
    (load_projects (some u) (some k) (Except.error e)).df = DataFrame.emptyDF ∧
    (load_members (some u) (some k) (Except.error e)).errorShown = false ∧
    (load_companies (some u) (some k) (Except.error e)).errorShown = false ∧
    (load_gbms (some u) (some k) (Except.error e)).errorShown = false ∧
    (load_attendance (some u) (some k) (Except.error e)).errorShown = false ∧
    (load_assignments (some u) (some k) (Except.error e)).errorShown = false ∧
    (load_projects none none f).halted = true := by
  have hnone : configOk none none = false := rfl
  simp [load_projects, load_members, load_companies, load_gbms,
    load_attendance, load_assignments, hcfg, hnone]

/-- Witness for C1's amended theorem at a concrete configuration. -/
theorem load_projects_error_surfaced_not_halting_witness :
    configOk (some "u") (some "k") = true ∧
    (load_projects (some "u") (some "k") (Except.error "boom")).halted = false :=
  ⟨by decide,
   (load_projects_error_surfaced_not_halting "u" "k" "boom" (by decide)
     (Except.ok DataFrame.emptyDF)).2.1⟩

/-- Counterexample to claim C2 as stated: on an empty projects table the
Active Projects KPI renders the number 0 (line 495), not the "N/A"
sentinel. -/
theorem active_projects_zero_on_empty :
    active_projects_kpi DataFrame.emptyDF = Metric.num 0 ∧
    Metric.num 0 ≠ Metric.na := by
  with_unfolding_all decide

/-- Claim C2 (amended): for every run in which the projects table is empty,
the filter leaves it unchanged, the Avg Team Size, Projects per Company and
Donated Projects KPIs render "N/A", the Active Projects KPI renders the
number 0, and no KPI computation raises (in particular the Avg Team Size
computation returns `some _`, never the `none` that models an exception). -/
theorem projects_kpis_on_empty_table (p comps assigns : DataFrame)
    (sel : List Value) (hp : p.rows = []) :
    applyFilter p sel = p ∧
    active_projects_kpi (applyFilter p sel) = Metric.num 0 ∧
    avg_team_size_kpi (applyFilter p sel) assigns = some Metric.na ∧
    projects_per_company_kpi comps (applyFilter p sel) = Metric.na ∧
    donated_projects_kpi (applyFilter p sel) = Metric.na := by
  have hfe : applyFilter p sel = p := by
    unfold applyFilter; rw [hp]; simp
  rw [hfe]
  refine ⟨rfl, ?_, ?_, ?_, ?_⟩
  · simp [active_projects_kpi, hp]
  · simp [avg_team_size_kpi, hp]
  · simp [projects_per_company_kpi, hp]
  · simp [donated_projects_kpi, hp]

/-- Witness for C2's amended theorem on the empty table. -/
theorem projects_kpis_on_empty_table_witness :
    DataFrame.emptyDF.rows = ([] : List (List Value)) ∧
    (applyFilter DataFrame.emptyDF [] = DataFrame.emptyDF ∧
     active_projects_kpi (applyFilter DataFrame.emptyDF []) = Metric.num 0 ∧
     avg_team_size_kpi (applyFilter DataFrame.emptyDF []) DataFrame.emptyDF =
       some Metric.na ∧
     projects_per_company_kpi DataFrame.emptyDF (applyFilter DataFrame.emptyDF []) =
       Metric.na ∧
     donated_projects_kpi (applyFilter DataFrame.emptyDF []) = Metric.na) :=
  ⟨rfl, projects_kpis_on_empty_table DataFrame.emptyDF DataFrame.emptyDF
    DataFrame.emptyDF [] rfl⟩

/-- Claim C3: for every non-empty projects table, an empty quarter selection
leaves the table unfiltered, and when the `quarter_id` column is absent the
filter also returns the table unchanged and the quarter multi-select offers
no options. -/
theorem applyFilter_identity (p : DataFrame) (sel : List Value)
    (_hne : p.rows.isEmpty = false) :
    (sel = [] → applyFilter p sel = p) ∧
    (p.hasCol "quarter_id" = false →
      applyFilter p sel = p ∧ quarterOptions p = []) := by
  constructor
  · intro hsel
    simp [applyFilter, hsel]
  · intro hq
    simp [applyFilter, quarterOptions, hq]

/-- Witness for C3 on a non-empty table lacking `quarter_id`, with the empty
selection. -/
theorem applyFilter_identity_witness :
    pW3.rows.isEmpty = false ∧
    ((([] : List Value) = [] → applyFilter pW3 [] = pW3) ∧
     (pW3.hasCol "quarter_id" = false →
       applyFilter pW3 [] = pW3 ∧ quarterOptions pW3 = [])) :=
  ⟨rfl, applyFilter_identity pW3 [] rfl⟩

/-- Claim C4: for every table, a second `load(T)` call within the cache
window returns the same content as the first call and performs no backend
query.  The cache is keyed by function identity only: each of the six
loaders takes no arguments and owns one cache slot, modelled by
`cachedCall`'s state. -/
theorem cached_second_call_no_query (fetch : Unit → DataFrame)
    (c0 : Option DataFrame) :
    (cachedCall fetch (cachedCall fetch c0).cache).df =
      (cachedCall fetch c0).df ∧
    (cachedCall fetch (cachedCall fetch c0).cache).backendQueries = 0 := by
  cases c0 <;> simp [cachedCall]

/-- A secondary loader's outcome on a failed fetch: empty table, no
user-visible error, no halt, and at most one fetch attempt (no retry). -/
def recoversSilently (r : LoadResult) : Prop :=
  r.df = DataFrame.emptyDF ∧ r.errorShown = false ∧ r.halted = false ∧
    r.fetchAttempts ≤ 1

/-- Claim C5: every secondary loader (member, company, gbm, attendance,
assignment) catches any fetch error locally and returns an empty table, with
no user-visible error, no halt and no retry — for any configuration and any
error. -/
theorem secondary_loaders_swallow_errors (url key : Option String)
    (e : String) :
    recoversSilently (load_members url key (Except.error e)) ∧
    recoversSilently (load_companies url key (Except.error e)) ∧
    recoversSilently (load_gbms url key (Except.error e)) ∧
    recoversSilently (load_attendance url key (Except.error e)) ∧
    recoversSilently (load_assignments url key (Except.error e)) := by
  cases h : configOk url key <;>
    simp [recoversSilently, load_members, load_companies, load_gbms,
      load_attendance, load_assignments, h]

/-- The mask of a role pattern factors through the column's cells. -/
theorem roleMask_eq (m : DataFrame) (pat : String) :
    roleMask m pat =
      (m.rows.map (fun r => cellAt m r "role")).map (roleMatches pat) := by
  unfold roleMask
  rw [List.map_map]
  rfl

/-- Claim C6: for a members table whose `role` column is exactly
`["Associate", "associate", "Analyst", "Partner"]`, the Associates & Analysts
KPI equals 3, because role matching is a case-insensitive substring test
("associate" matches "Associate"; "Partner" matches neither pattern). -/
theorem associates_analysts_kpi_eq_three (m : DataFrame)
    (hc : m.hasCol "role" = true)
    (h : m.rows.map (fun r => cellAt m r "role") =
      [some (Value.vStr "Associate"), some (Value.vStr "associate"),
       some (Value.vStr "Analyst"), some (Value.vStr "Partner")]) :
    associates_analysts_kpi m = Metric.num 3 := by
  have hlen : m.rows.length = 4 := by simpa using congrArg List.length h
  have hne : m.rows.isEmpty = false := by
    cases hr : m.rows with
    | nil => rw [hr] at hlen; simp at hlen
    | cons a t => rfl
  unfold associates_analysts_kpi
  rw [hne, hc, roleMask_eq m "Associate", roleMask_eq m "Analyst", h]
  with_unfolding_all rfl

/-- Witness for C6 on the concrete four-row members table. -/
theorem associates_analysts_kpi_eq_three_witness :
    memC.hasCol "role" = true ∧
    memC.rows.map (fun r => cellAt memC r "role") =
      [some (Value.vStr "Associate"), some (Value.vStr "associate"),
       some (Value.vStr "Analyst"), some (Value.vStr "Partner")] ∧
    associates_analysts_kpi memC = Metric.num 3 :=
  ⟨by decide, by decide,
   associates_analysts_kpi_eq_three memC (by decide) (by decide)⟩

/-- Claim C7: for the attendance table `[(gbm_id=1,status=True),
(gbm_id=1,status=False), (gbm_id=2,status=True)]` and any non-empty members
table, the Avg Attendance/GBM KPI equals 1.0 — the mean over the per-GBM sums
of `status` (sums 1 and 1). -/
theorem avg_attendance_per_gbm_eq_one (members : DataFrame)
    (hm : members.rows.isEmpty = false) :
    avg_attendance_per_gbm_kpi attC members = Metric.num 1 := by
  unfold avg_attendance_per_gbm_kpi
  rw [hm]
  with_unfolding_all rfl

/-- Witness for C7 with a one-row members table. -/
theorem avg_attendance_per_gbm_eq_one_witness :
    membersW.rows.isEmpty = false ∧
    avg_attendance_per_gbm_kpi attC membersW = Metric.num 1 :=
  ⟨rfl, avg_attendance_per_gbm_eq_one membersW rfl⟩

/-- Claim C8: for a filtered projects table whose `donated` column is exactly
`[True, False, True]`, the Donated Projects KPI displays 66.7 percent
(2/3 · 100 rounded to one decimal place). -/
theorem donated_pct_eq_667_tenths (fp : DataFrame)
    (hc : fp.hasCol "donated" = true)
    (h : fp.rows.map (fun r => cellAt fp r "donated") =
      [some (Value.vBool true), some (Value.vBool false),
       some (Value.vBool true)]) :
    donated_projects_kpi fp = Metric.num (667 / 10) := by
  have hlen : fp.rows.length = 3 := by simpa using congrArg List.length h
  have hne : fp.rows.isEmpty = false := by
    cases hr : fp.rows with
    | nil => rw [hr] at hlen; simp at hlen
    | cons a t => rfl
  unfold donated_projects_kpi sumColQ DataFrame.colVals
  rw [hne, hc, h, hlen]
  with_unfolding_all rfl

/-- Witness for C8 on the concrete three-row projects table. -/
theorem donated_pct_eq_667_tenths_witness :
    donC.hasCol "donated" = true ∧
    donC.rows.map (fun r => cellAt donC r "donated") =
      [some (Value.vBool true), some (Value.vBool false),
       some (Value.vBool true)] ∧
    donated_projects_kpi donC = Metric.num (667 / 10) :=
  ⟨by decide, by decide,
   donated_pct_eq_667_tenths donC (by decide) (by decide)⟩

/-- Claim C9: for every run with a non-empty attendance table, if the members
table is empty then both the GBM Attendance KPI and the Avg Attendance/GBM
KPI render "N/A": their guards (lines 790 and 799) require a non-empty
members table even though the computations use only the attendance table. -/
theorem attendance_kpis_na_when_members_empty (att members : DataFrame)
    (_ha : att.rows.isEmpty = false) (hm : members.rows = []) :
    gbm_attendance_kpi att members = Metric.na ∧
    avg_attendance_per_gbm_kpi att members = Metric.na := by
  constructor
  · simp [gbm_attendance_kpi, hm]
  · simp [avg_attendance_per_gbm_kpi, hm]

/-- Witness for C9: the three-row attendance table with no members. -/
theorem attendance_kpis_na_when_members_empty_witness :
    attC.rows.isEmpty = false ∧
    DataFrame.emptyDF.rows = ([] : List (List Value)) ∧
    (gbm_attendance_kpi attC DataFrame.emptyDF = Metric.na ∧
     avg_attendance_per_gbm_kpi attC DataFrame.emptyDF = Metric.na) :=
  ⟨rfl, rfl, attendance_kpis_na_when_members_empty attC DataFrame.emptyDF rfl rfl⟩

/-- Claim C10: two runs over the same loaded tables that differ only in the
selected quarters display the same Avg Team Size KPI whenever both filtered
projects tables are non-empty and have a `project_manager` column: the KPI is
computed from the full assignments table grouped by `project_id`,
independent of the quarter selection. -/
theorem avg_team_size_filter_invariant (p assigns : DataFrame)
    (s1 s2 : List Value)
    (h1 : (applyFilter p s1).rows.isEmpty = false)
    (h1c : (applyFilter p s1).hasCol "project_manager" = true)
    (h2 : (applyFilter p s2).rows.isEmpty = false)
    (h2c : (applyFilter p s2).hasCol "project_manager" = true) :
    avg_team_size_kpi (applyFilter p s1) assigns =
      avg_team_size_kpi (applyFilter p s2) assigns := by
  unfold avg_team_size_kpi
  rw [h1, h1c, h2, h2c]

/-- Witness for C10: two one-quarter selections of a two-quarter projects
table. -/
theorem avg_team_size_filter_invariant_witness :
    (applyFilter pW10 [Value.vInt 1]).rows.isEmpty = false ∧
    (applyFilter pW10 [Value.vInt 1]).hasCol "project_manager" = true ∧
    (applyFilter pW10 [Value.vInt 2]).rows.isEmpty = false ∧
    (applyFilter pW10 [Value.vInt 2]).hasCol "project_manager" = true ∧
    avg_team_size_kpi (applyFilter pW10 [Value.vInt 1]) DataFrame.emptyDF =
      avg_team_size_kpi (applyFilter pW10 [Value.vInt 2]) DataFrame.emptyDF :=
  ⟨by decide, by decide, by decide, by decide,
   avg_team_size_filter_invariant pW10 DataFrame.emptyDF [Value.vInt 1]
     [Value.vInt 2] (by decide) (by decide) (by decide) (by decide)⟩

end TCG
